import Mathlib

/-!
Verification of the cart-to-order and stock-reservation subsystem of the
e-commerce REST backend.  The controllers `createOrder`, `cancelOrder`,
`updateOrderStatus` (order controller) and `updateCartItem` (cart
controller) are embedded as pure state-transforming functions; the MongoDB
persistence layer is modelled as lists of documents keyed by numeric ids,
and each `await ...save()` / `findByIdAndUpdate` becomes an explicit state
update.  Persistence failures of the two `save()` calls inside
`createOrder` are modelled by an environment of boolean flags.
-/

namespace ECom

/-- A product document: `findProductById(id) -> {price, stock, name, sku}`.
Stock is an `Int` because the JS code applies `$inc` without a floor. -/
structure Product where
  pid : Nat
  name : String
  sku : String
  price : Int
  stock : Int
  deriving DecidableEq

/-- A cart line item: product reference, optional variant, unit price
captured at add-time, quantity, and the saved-for-later flag. -/
structure CartItem where
  itemId : Nat
  product : Nat
  variant : Option Nat
  price : Int
  quantity : Int
  savedForLater : Bool
  deriving DecidableEq

/-- An applied coupon on a cart (`{code, value}`). -/
structure Coupon where
  code : String
  value : Int
  deriving DecidableEq

/-- A cart document: keyed by user id or anonymous session id, with line
items, applied coupons and the five cached aggregate totals. -/
structure Cart where
  cid : Nat
  user : Option Nat
  sessionId : Option Nat
  items : List CartItem
  appliedCoupons : List Coupon
  subtotal : Int
  discountTotal : Int
  taxTotal : Int
  shippingTotal : Int
  grandTotal : Int
  deriving DecidableEq

/-- An order line item, as built by `createOrder`'s `cart.items.map`. -/
structure OrderItem where
  product : Nat
  variant : Option Nat
  name : String
  sku : String
  price : Int
  quantity : Int
  subtotal : Int
  deriving DecidableEq

/-- A status-history entry (`{status, note}`; timestamps elided). -/
structure HistoryEntry where
  status : String
  note : String
  deriving DecidableEq

/-- A coupon snapshot stored on an order (`{code, discount}`). -/
structure OrderCoupon where
  code : String
  discount : Int
  deriving DecidableEq

/-- An order document as constructed by `new Order({...})`. -/
structure Order where
  oid : Nat
  user : Option Nat
  email : Option String
  items : List OrderItem
  billingAddress : String
  shippingAddress : String
  paymentMethod : String
  shippingMethod : String
  subtotal : Int
  discountTotal : Int
  taxTotal : Int
  shippingTotal : Int
  grandTotal : Int
  notes : Option String
  appliedCoupons : List OrderCoupon
  status : String
  statusHistory : List HistoryEntry
  deriving DecidableEq

/-- The persistent state: the three MongoDB collections. -/
structure St where
  products : List Product
  carts : List Cart
  orders : List Order
  deriving DecidableEq

/-- Errors surfaced by the controllers: `ApiError(code, message)` thrown by
the controller code, a rejected promise from a `save()` call (persistence
failure), and a JavaScript `TypeError` (e.g. property access on
`undefined`). -/
inductive Err where
  | api (code : Nat) (msg : String)
  | saveFail (what : String)
  | typeError (msg : String)
  deriving DecidableEq

/-- The authenticated requester (`req.user`): id, email, role. -/
structure Requester where
  id : Nat
  email : String
  role : String
  deriving DecidableEq

/-- The request body of `POST /orders` plus `req.user`. -/
structure CreateReq where
  user : Option Requester
  sessionId : Option Nat
  email : Option String
  shippingAddress : String
  billingAddress : String
  paymentMethod : String
  shippingMethod : String
  notes : Option String
  deriving DecidableEq

/-- Environment for `createOrder`: whether `order.save()` and
`cart.save()` succeed.  `false` models a persistence failure at that
`await`. -/
structure Env where
  orderSaveOk : Bool
  cartSaveOk : Bool
  deriving DecidableEq

/-- The cart query built by the controllers:
`{user: req.user.id}` or `{sessionId}`. -/
inductive CartQuery where
  | byUser (uid : Nat)
  | bySession (sid : Nat)
  deriving DecidableEq

/-- Query construction in `createOrder` / `updateCartItem`:
`req.user` wins, else `sessionId`, else the guest-checkout error. -/
def resolveQuery (user : Option Requester) (sessionId : Option Nat) :
    Option CartQuery :=
  match user with
  | some u => some (.byUser u.id)
  | none =>
    match sessionId with
    | some sid => some (.bySession sid)
    | none => none

/-- Whether a cart document matches the query. -/
def cartMatches (q : CartQuery) (c : Cart) : Bool :=
  match q with
  | .byUser uid => c.user = some uid
  | .bySession sid => c.sessionId = some sid

/-- `Cart.findOne(query)`: first cart matching the query. -/
def findCart : List Cart → CartQuery → Option Cart
  | [], _ => none
  | c :: cs, q => if cartMatches q c then some c else findCart cs q

/-- `Product.findById(id)`: first product with the given id (Mongo `_id`s
are unique, so first-match equals unique-match). -/
def findProduct : List Product → Nat → Option Product
  | [], _ => none
  | p :: ps, pid => if p.pid = pid then some p else findProduct ps pid

/-- `Order.findById(id)`. -/
def findOrder : List Order → Nat → Option Order
  | [], _ => none
  | o :: os, oid => if o.oid = oid then some o else findOrder os oid

/-- `Product.findByIdAndUpdate(pid, {$inc: {stock: d}})`: adjust the stock
of the (first) product with the given id; a no-op when absent. -/
def adjStock : List Product → Nat → Int → List Product
  | [], _, _ => []
  | p :: ps, pid, d =>
    if p.pid = pid then { p with stock := p.stock + d } :: ps
    else p :: adjStock ps pid d

/-- The stock-decrement loop of `createOrder`:
`for (item of cart.items) ... $inc: {stock: -item.quantity}`. -/
def decAllItems : List Product → List CartItem → List Product
  | prods, [] => prods
  | prods, it :: rest => decAllItems (adjStock prods it.product (-it.quantity)) rest

/-- The stock-restore loop of `cancelOrder`:
`for (item of order.items) ... $inc: {stock: item.quantity}`. -/
def incAllItems : List Product → List OrderItem → List Product
  | prods, [] => prods
  | prods, it :: rest => incAllItems (adjStock prods it.product it.quantity) rest

/-- The stock-validation loop of `createOrder`: for each item, look the
product up; throw `ApiError(400, "Not enough stock for <name or 'a
product'>")` if it is missing or its stock is below the requested
quantity. -/
def stockCheck (prods : List Product) : List CartItem → Option Err
  | [] => none
  | it :: rest =>
    match findProduct prods it.product with
    | none => some (.api 400 ("Not enough stock for " ++ "a product"))
    | some p =>
      if p.stock < it.quantity then
        some (.api 400 ("Not enough stock for " ++ p.name))
      else stockCheck prods rest

/-- One step of `cart.items.map((item) => ({...}))` in `createOrder`:
product id and unit price come from the cart item, name and sku from the
(populated) product document, subtotal is `item.price * item.quantity`.
The `none` branch is unreachable after a passed stock check. -/
def snapItem (prods : List Product) (it : CartItem) : OrderItem :=
  match findProduct prods it.product with
  | some p =>
    { product := it.product, variant := it.variant, name := p.name,
      sku := p.sku, price := it.price, quantity := it.quantity,
      subtotal := it.price * it.quantity }
  | none =>
    { product := it.product, variant := it.variant, name := "", sku := "",
      price := it.price, quantity := it.quantity,
      subtotal := it.price * it.quantity }

/-- `new Order({...})` as built in `createOrder` (`status` is not set by
the controller; the order model file is not among the sources, so its
default is modelled from the spec: initial status `pending`). -/
def buildOrder (req : CreateReq) (cart : Cart) (oid : Nat)
    (items : List OrderItem) : Order :=
  { oid := oid
    user := req.user.map (·.id)
    email := match req.user with | some u => some u.email | none => req.email
    items := items
    billingAddress := req.billingAddress
    shippingAddress := req.shippingAddress
    paymentMethod := req.paymentMethod
    shippingMethod := req.shippingMethod
    subtotal := cart.subtotal
    discountTotal := cart.discountTotal
    taxTotal := cart.taxTotal
    shippingTotal := cart.shippingTotal
    grandTotal := cart.grandTotal
    notes := req.notes
    appliedCoupons := cart.appliedCoupons.map (fun c => { code := c.code, discount := c.value })
    status := "pending"
    statusHistory := [{ status := "pending", note := "Order created" }] }

/-- The cart-clearing block of `createOrder` / `clearCart`: empty items
and coupons, zero all five cached totals. -/
def clearCart (c : Cart) : Cart :=
  { c with
    items := []
    appliedCoupons := []
    subtotal := 0
    discountTotal := 0
    taxTotal := 0
    shippingTotal := 0
    grandTotal := 0 }

/-- `cart.save()`: replace the cart document with the same `_id`. -/
def saveCart : List Cart → Cart → List Cart
  | [], _ => []
  | c :: cs, c' => if c.cid = c'.cid then c' :: cs else c :: saveCart cs c'

/-- `order.save()` on an existing order: replace the document with the
same `_id`. -/
def saveOrder : List Order → Order → List Order
  | [], _ => []
  | o :: os, o' => if o.oid = o'.oid then o' :: os else o :: saveOrder os o'

/-- `createOrder` (order controller).  Returns the response
(`Except Err Order`) together with the persistent state as left behind:
on an error thrown before any write, the state is unchanged; on a
`cart.save()` failure the order insert and the stock decrements have
already been committed. -/
def createOrder (st : St) (req : CreateReq) (env : Env) (newOid : Nat) :
    Except Err Order × St :=
  match resolveQuery req.user req.sessionId with
  | none => (.error (.api 400 "Session ID is required for guest checkout"), st)
  | some q =>
    match findCart st.carts q with
    | none => (.error (.api 400 "Cart is empty"), st)
    | some cart =>
      if cart.items.isEmpty then (.error (.api 400 "Cart is empty"), st)
      else
        match stockCheck st.products cart.items with
        | some e => (.error e, st)
        | none =>
          let order := buildOrder req cart newOid (cart.items.map (snapItem st.products))
          if env.orderSaveOk = false then (.error (.saveFail "order"), st)
          else
            let st2 : St := { st with
              orders := st.orders ++ [order]
              products := decAllItems st.products cart.items }
            if env.cartSaveOk = false then (.error (.saveFail "cart"), st2)
            else
              (.ok order, { st2 with carts := saveCart st2.carts (clearCart cart) })

/-- JavaScript `x || d` on an optional string: the default is used both
when the value is absent and when it is the empty string (falsy). -/
def jsOr (s : Option String) (d : String) : String :=
  match s with
  | some v => if v = "" then d else v
  | none => d

/-- The ownership test in the order controllers:
`order.user && order.user.toString() !== req.user.id` — vacuously false
for guest orders (`order.user` null). -/
def ownerMismatch : Option Nat → Nat → Bool
  | some ou, uid => ou != uid
  | none, _ => false

/-- `cancelOrder` (order controller): 404 when absent; 403 when the
requester is neither admin nor owner; 400 unless the status is `pending`
or `processing`; otherwise set status `cancelled`, append the history
entry, save, and restore stock for every order line item. -/
def cancelOrder (st : St) (u : Requester) (oid : Nat)
    (reason : Option String) : Except Err Order × St :=
  match findOrder st.orders oid with
  | none => (.error (.api 404 "Order not found"), st)
  | some order =>
    if u.role != "admin" && ownerMismatch order.user u.id then
      (.error (.api 403 "You are not authorized to cancel this order"), st)
    else if !(order.status == "pending" || order.status == "processing") then
      (.error (.api 400 "This order cannot be cancelled"), st)
    else
      let order' := { order with
        status := "cancelled"
        statusHistory := order.statusHistory ++
          [{ status := "cancelled", note := jsOr reason "Order cancelled by user" }] }
      (.ok order',
        { st with
          orders := saveOrder st.orders order'
          products := incAllItems st.products order.items })

/-- `updateOrderStatus` (order controller): 404 when absent; otherwise
unconditionally set the status and append
`{status, note: note || "Status updated to <status>"}`.  The controller
performs no check on the current status. -/
def updateOrderStatus (st : St) (oid : Nat) (status : String)
    (note : Option String) : Except Err Order × St :=
  match findOrder st.orders oid with
  | none => (.error (.api 404 "Order not found"), st)
  | some order =>
    let order' := { order with
      status := status
      statusHistory := order.statusHistory ++
        [{ status := status, note := jsOr note ("Status updated to " ++ status) }] }
    (.ok order', { st with orders := saveOrder st.orders order' })

/-- JavaScript `Array.prototype.findIndex` (first index satisfying the
test), with `-1` rendered as `none`. -/
def findIndex (p : α → Bool) : List α → Option Nat
  | [] => none
  | a :: l => if p a then some 0 else (findIndex p l).map (· + 1)

/-- Modelled from the spec: `recalculateTotals` is defined on the cart
model in `cart.model.js`, which is not among the provided sources.
Per spec §4.1 (CartTotals): saved-for-later items are excluded from every
sum; subtotal = Σ unitPrice × quantity over included items;
discountTotal = Σ applied discount values; taxTotal and shippingTotal
come from externally supplied policy functions (modelled as zero);
grandTotal = subtotal − discountTotal + taxTotal + shippingTotal, floored
at zero. -/
def recalcTotals (c : Cart) : Cart :=
  let included := c.items.filter (fun it => !it.savedForLater)
  let sub := (included.map (fun it => it.price * it.quantity)).foldl (· + ·) 0
  let disc := (c.appliedCoupons.map (·.value)).foldl (· + ·) 0
  let tax : Int := 0
  let ship : Int := 0
  { c with
    subtotal := sub
    discountTotal := disc
    taxTotal := tax
    shippingTotal := ship
    grandTotal := max 0 (sub - disc + tax + ship) }

/-- The quantity branch of `updateCartItem`: when a quantity is supplied,
a non-positive value splices the item out of the list; a positive value
is stock-checked against the product and then written in place. -/
def quantityStep (prods : List Product) (items : List CartItem)
    (i : Nat) : Option Int → Except Err (List CartItem)
  | none => .ok items
  | some q =>
    if q ≤ 0 then .ok (items.eraseIdx i)
    else
      match items.get? i with
      | none => .error (.typeError "Cannot read properties of undefined")
      | some it =>
        match findProduct prods it.product with
        | none => .error (.api 400 "Not enough stock available")
        | some p =>
          if p.stock < q then .error (.api 400 "Not enough stock available")
          else .ok (items.set i { it with quantity := q })

/-- Recalculate-and-save tail of the cart mutations. -/
def finishCart (st : St) (cart : Cart) (items' : List CartItem) :
    Except Err Cart × St :=
  let cart' := recalcTotals { cart with items := items' }
  (.ok cart', { st with carts := saveCart st.carts cart' })

/-- `updateCartItem` (cart controller): resolve the cart, find the item
index by id, run the quantity branch (which may splice the item out),
then — reusing the same, now stale, index — the saved-for-later branch
writes `cart.items[itemIndex].savedForLater`; when that index is out of
range the JavaScript assignment to a property of `undefined` raises a
`TypeError`. -/
def updateCartItem (st : St) (user : Option Requester)
    (sessionId : Option Nat) (itemId : Nat) (quantity : Option Int)
    (savedForLater : Option Bool) : Except Err Cart × St :=
  match resolveQuery user sessionId with
  | none => (.error (.api 400 "Session ID is required for guest cart"), st)
  | some q =>
    match findCart st.carts q with
    | none => (.error (.api 404 "Cart not found"), st)
    | some cart =>
      match findIndex (fun it => it.itemId == itemId) cart.items with
      | none => (.error (.api 404 "Item not found in cart"), st)
      | some itemIndex =>
        match quantityStep st.products cart.items itemIndex quantity with
        | .error e => (.error e, st)
        | .ok items1 =>
          match savedForLater with
          | none => finishCart st cart items1
          | some b =>
            match items1.get? itemIndex with
            | some it =>
              finishCart st cart (items1.set itemIndex { it with savedForLater := b })
            | none =>
              (.error (.typeError "Cannot set properties of undefined"), st)

/-! ### The operation sequences of claim C1 -/

/-- One request against the system: an order creation or a cancellation,
run to completion. -/
inductive Op where
  | create (req : CreateReq) (env : Env) (oid : Nat)
  | cancel (u : Requester) (oid : Nat) (reason : Option String)

/-- The state left behind by one request (the response is discarded). -/
def stepOp (st : St) : Op → St
  | .create req env oid => (createOrder st req env oid).2
  | .cancel u oid reason => (cancelOrder st u oid reason).2

/-- Run a sequence of requests in order. -/
def runOps (st : St) : List Op → St
  | [] => st
  | op :: ops => runOps (stepOp st op) ops

/-- Every product in the database has non-negative stock. -/
def stocksNonneg (prods : List Product) : Prop :=
  ∀ p ∈ prods, 0 ≤ p.stock

/-- A cart references each product in at most one line item and carries
only non-negative quantities. -/
def cartOk (c : Cart) : Prop :=
  (c.items.map (·.product)).Nodup ∧ ∀ it ∈ c.items, 0 ≤ it.quantity

/-- An order carries only non-negative line-item quantities. -/
def orderOk (o : Order) : Prop :=
  ∀ it ∈ o.items, 0 ≤ it.quantity

/-- The inductive invariant for claim C1: non-negative stock, well-formed
carts, well-formed orders. -/
def Wf (st : St) : Prop :=
  stocksNonneg st.products ∧ (∀ c ∈ st.carts, cartOk c) ∧
    ∀ o ∈ st.orders, orderOk o

/-- Net quantity a list of cart items orders for a given product. -/
def cQty (items : List CartItem) (pid : Nat) : Int :=
  match items with
  | [] => 0
  | it :: rest => (if it.product = pid then it.quantity else 0) + cQty rest pid

/-- Net quantity a list of order items holds for a given product. -/
def oQty (items : List OrderItem) (pid : Nat) : Int :=
  match items with
  | [] => 0
  | it :: rest => (if it.product = pid then it.quantity else 0) + oQty rest pid

/-! ### Lemmas about the stock-adjustment primitives -/

theorem findProduct_adjStock (prods : List Product) (pid' : Nat) (d : Int)
    (pid : Nat) :
    findProduct (adjStock prods pid' d) pid =
      if pid' = pid then
        (findProduct prods pid).map (fun p => { p with stock := p.stock + d })
      else findProduct prods pid := by
  induction prods with
  | nil => simp [adjStock, findProduct]
  | cons p ps ih =>
    by_cases h1 : p.pid = pid'
    · by_cases h2 : pid' = pid
      · simp [adjStock, findProduct, h1, h2, h1.trans h2]
      · have h3 : ¬ p.pid = pid := fun h => h2 (h1 ▸ h)
        simp [adjStock, findProduct, h1, h2, h3]
    · by_cases h3 : p.pid = pid
      · have h2 : ¬ pid' = pid := fun h => h1 (h3.trans h.symm)
        have h4 : ¬ pid = pid' := fun h => h2 h.symm
        simp [adjStock, findProduct, h1, h2, h3, h4]
      · simp [adjStock, findProduct, h1, h3, ih]

theorem mem_adjStock {q : Product} {prods : List Product} {pid : Nat}
    {d : Int} (h : q ∈ adjStock prods pid d) :
    q ∈ prods ∨ ∃ p, findProduct prods pid = some p ∧
      q = { p with stock := p.stock + d } := by
  induction prods with
  | nil => simp [adjStock] at h
  | cons p ps ih =>
    by_cases h1 : p.pid = pid
    · simp only [adjStock, if_pos h1] at h
      rcases List.mem_cons.mp h with h2 | h2
      · exact Or.inr ⟨p, by simp [findProduct, h1], h2⟩
      · exact Or.inl (List.mem_cons_of_mem _ h2)
    · simp only [adjStock, if_neg h1] at h
      rcases List.mem_cons.mp h with h2 | h2
      · exact Or.inl (h2 ▸ List.mem_cons_self _ _)
      · rcases ih h2 with h3 | ⟨p', hp', hq⟩
        · exact Or.inl (List.mem_cons_of_mem _ h3)
        · exact Or.inr ⟨p', by simp [findProduct, h1, hp'], hq⟩

theorem findProduct_decAllItems (items : List CartItem) :
    ∀ (prods : List Product) (pid : Nat),
      findProduct (decAllItems prods items) pid =
        (findProduct prods pid).map
          (fun p => { p with stock := p.stock - cQty items pid }) := by
  induction items with
  | nil =>
    intro prods pid
    cases h : findProduct prods pid <;> simp [decAllItems, cQty, h]
  | cons it rest ih =>
    intro prods pid
    simp only [decAllItems, ih, findProduct_adjStock]
    by_cases h1 : it.product = pid
    · cases h : findProduct prods pid <;>
        simp [h1, h, cQty, Int.sub_sub, Int.add_comm, Int.sub_eq_add_neg, Int.add_assoc]
    · cases h : findProduct prods pid <;> simp [h1, h, cQty]

theorem findProduct_incAllItems (items : List OrderItem) :
    ∀ (prods : List Product) (pid : Nat),
      findProduct (incAllItems prods items) pid =
        (findProduct prods pid).map
          (fun p => { p with stock := p.stock + oQty items pid }) := by
  induction items with
  | nil =>
    intro prods pid
    cases h : findProduct prods pid <;> simp [incAllItems, oQty, h]
  | cons it rest ih =>
    intro prods pid
    simp only [incAllItems, ih, findProduct_adjStock]
    by_cases h1 : it.product = pid
    · cases h : findProduct prods pid <;>
        simp [h1, h, oQty, Int.add_comm, Int.add_assoc, Int.add_left_comm]
    · cases h : findProduct prods pid <;> simp [h1, h, oQty]

/-! ### Lemmas about the stock-validation loop -/

theorem stockCheck_none_iff (prods : List Product) (items : List CartItem) :
    stockCheck prods items = none ↔
      ∀ it ∈ items, ∃ p, findProduct prods it.product = some p ∧
        it.quantity ≤ p.stock := by
  induction items with
  | nil => simp [stockCheck]
  | cons it rest ih =>
    constructor
    · intro h it' hmem
      cases hp : findProduct prods it.product with
      | none => simp [stockCheck, hp] at h
      | some p =>
        by_cases hs : p.stock < it.quantity
        · simp [stockCheck, hp, hs] at h
        · simp only [stockCheck, hp, if_neg hs] at h
          rcases List.mem_cons.mp hmem with h2 | h2
          · exact ⟨p, h2 ▸ hp, h2 ▸ Int.not_lt.mp hs⟩
          · exact (ih.mp h) it' h2
    · intro h
      rcases h it (List.mem_cons_self _ _) with ⟨p, hp, hs⟩
      simp only [stockCheck, hp, if_neg (Int.not_lt.mpr hs)]
      exact ih.mpr fun it' h' => h it' (List.mem_cons_of_mem _ h')

theorem stockCheck_some_shape {prods : List Product} {items : List CartItem}
    {e : Err} (h : stockCheck prods items = some e) :
    ∃ s, e = .api 400 ("Not enough stock for " ++ s) := by
  induction items with
  | nil => simp [stockCheck] at h
  | cons it rest ih =>
    cases hp : findProduct prods it.product with
    | none =>
      simp only [stockCheck, hp, Option.some.injEq] at h
      exact ⟨"a product", h.symm⟩
    | some p =>
      by_cases hs : p.stock < it.quantity
      · simp only [stockCheck, hp, if_pos hs, Option.some.injEq] at h
        exact ⟨p.name, h.symm⟩
      · simp only [stockCheck, hp, if_neg hs] at h
        exact ih h

theorem stockCheck_fails {prods : List Product} {items : List CartItem}
    (hall : ∀ it ∈ items, ∃ p, findProduct prods it.product = some p)
    (hbad : ∃ it ∈ items, ∃ p, findProduct prods it.product = some p ∧
      p.stock < it.quantity) :
    ∃ it' p', it' ∈ items ∧ findProduct prods it'.product = some p' ∧
      p'.stock < it'.quantity ∧
      stockCheck prods items = some (.api 400 ("Not enough stock for " ++ p'.name)) := by
  induction items with
  | nil => simp at hbad
  | cons it rest ih =>
    rcases hall it (List.mem_cons_self _ _) with ⟨p, hp⟩
    by_cases hs : p.stock < it.quantity
    · exact ⟨it, p, List.mem_cons_self _ _, hp, hs, by simp [stockCheck, hp, hs]⟩
    · have hbad' : ∃ it' ∈ rest, ∃ p', findProduct prods it'.product = some p' ∧
          p'.stock < it'.quantity := by
        rcases hbad with ⟨it', hmem, p', hp', hs'⟩
        rcases List.mem_cons.mp hmem with h2 | h2
        · exfalso
          rw [h2] at hp' hs'
          rw [hp] at hp'
          obtain rfl : p = p' := Option.some.inj hp'
          exact hs hs'
        · exact ⟨it', h2, p', hp', hs'⟩
      rcases ih (fun x hx => hall x (List.mem_cons_of_mem _ hx)) hbad' with
        ⟨it', p', hmem, hp', hs', hchk⟩
      exact ⟨it', p', List.mem_cons_of_mem _ hmem, hp', hs',
        by simp [stockCheck, hp, hs, hchk]⟩

/-! ### Lemmas about document lookup and replacement -/

theorem findProduct_mem {prods : List Product} {pid : Nat} {p : Product}
    (h : findProduct prods pid = some p) : p ∈ prods := by
  induction prods with
  | nil => simp [findProduct] at h
  | cons p' ps ih =>
    by_cases h1 : p'.pid = pid
    · simp only [findProduct, if_pos h1, Option.some.injEq] at h
      exact h ▸ List.mem_cons_self _ _
    · simp only [findProduct, if_neg h1] at h
      exact List.mem_cons_of_mem _ (ih h)

theorem findCart_mem {carts : List Cart} {q : CartQuery} {c : Cart}
    (h : findCart carts q = some c) : c ∈ carts := by
  induction carts with
  | nil => simp [findCart] at h
  | cons c' cs ih =>
    by_cases h1 : cartMatches q c'
    · simp only [findCart, if_pos h1, Option.some.injEq] at h
      exact h ▸ List.mem_cons_self _ _
    · simp only [findCart, if_neg h1] at h
      exact List.mem_cons_of_mem _ (ih h)

theorem findOrder_mem {orders : List Order} {oid : Nat} {o : Order}
    (h : findOrder orders oid = some o) : o ∈ orders := by
  induction orders with
  | nil => simp [findOrder] at h
  | cons o' os ih =>
    by_cases h1 : o'.oid = oid
    · simp only [findOrder, if_pos h1, Option.some.injEq] at h
      exact h ▸ List.mem_cons_self _ _
    · simp only [findOrder, if_neg h1] at h
      exact List.mem_cons_of_mem _ (ih h)

theorem findOrder_oid {orders : List Order} {oid : Nat} {o : Order}
    (h : findOrder orders oid = some o) : o.oid = oid := by
  induction orders with
  | nil => simp [findOrder] at h
  | cons o' os ih =>
    by_cases h1 : o'.oid = oid
    · simp only [findOrder, if_pos h1, Option.some.injEq] at h
      exact h ▸ h1
    · simp only [findOrder, if_neg h1] at h
      exact ih h

theorem findOrder_saveOrder {orders : List Order} {oid : Nat} {o : Order}
    (o' : Order) (h : findOrder orders oid = some o) (h' : o'.oid = oid) :
    findOrder (saveOrder orders o') oid = some o' := by
  induction orders with
  | nil => simp [findOrder] at h
  | cons o1 os ih =>
    by_cases h1 : o1.oid = oid
    · simp [saveOrder, findOrder, h1, h', h1.trans h'.symm]
    · have h2 : ¬ o1.oid = o'.oid := fun hx => h1 (hx.trans h')
      simp only [findOrder, if_neg h1] at h
      simp [saveOrder, findOrder, h1, h2, ih h]

theorem mem_saveOrder {orders : List Order} {o o' : Order}
    (h : o ∈ saveOrder orders o') : o ∈ orders ∨ o = o' := by
  induction orders with
  | nil => simp [saveOrder] at h
  | cons o1 os ih =>
    by_cases h1 : o1.oid = o'.oid
    · simp only [saveOrder, if_pos h1] at h
      rcases List.mem_cons.mp h with h2 | h2
      · exact Or.inr h2
      · exact Or.inl (List.mem_cons_of_mem _ h2)
    · simp only [saveOrder, if_neg h1] at h
      rcases List.mem_cons.mp h with h2 | h2
      · exact Or.inl (h2 ▸ List.mem_cons_self _ _)
      · rcases ih h2 with h3 | h3
        · exact Or.inl (List.mem_cons_of_mem _ h3)
        · exact Or.inr h3

theorem mem_saveCart {carts : List Cart} {c c' : Cart}
    (h : c ∈ saveCart carts c') : c ∈ carts ∨ c = c' := by
  induction carts with
  | nil => simp [saveCart] at h
  | cons c1 cs ih =>
    by_cases h1 : c1.cid = c'.cid
    · simp only [saveCart, if_pos h1] at h
      rcases List.mem_cons.mp h with h2 | h2
      · exact Or.inr h2
      · exact Or.inl (List.mem_cons_of_mem _ h2)
    · simp only [saveCart, if_neg h1] at h
      rcases List.mem_cons.mp h with h2 | h2
      · exact Or.inl (h2 ▸ List.mem_cons_self _ _)
      · rcases ih h2 with h3 | h3
        · exact Or.inl (List.mem_cons_of_mem _ h3)
        · exact Or.inr h3

/-! ### Non-negativity of stock under the decrement and restore loops -/

theorem decAll_nonneg {items : List CartItem} :
    ∀ {prods : List Product},
      (∀ p ∈ prods, 0 ≤ p.stock) →
      (items.map (·.product)).Nodup →
      (∀ it ∈ items, ∃ p, findProduct prods it.product = some p ∧
        it.quantity ≤ p.stock) →
      ∀ p ∈ decAllItems prods items, 0 ≤ p.stock := by
  induction items with
  | nil =>
    intro prods hnn _ _
    simpa [decAllItems] using hnn
  | cons it rest ih =>
    intro prods hnn hnd hchk
    rw [List.map_cons, List.nodup_cons] at hnd
    rcases hchk it (List.mem_cons_self _ _) with ⟨p0, hp0, hq0⟩
    simp only [decAllItems]
    apply ih
    · intro p hp
      rcases mem_adjStock hp with h | ⟨p1, hp1, rfl⟩
      · exact hnn p h
      · rw [hp0] at hp1
        obtain rfl : p0 = p1 := Option.some.inj hp1
        show 0 ≤ p0.stock + -it.quantity
        omega
    · exact hnd.2
    · intro it' hmem
      have hne : ¬ it.product = it'.product := by
        intro h
        exact hnd.1 (h ▸ List.mem_map_of_mem _ hmem)
      rcases hchk it' (List.mem_cons_of_mem _ hmem) with ⟨p, hp, hq⟩
      refine ⟨p, ?_, hq⟩
      rw [findProduct_adjStock, if_neg hne]
      exact hp

theorem incAll_nonneg {items : List OrderItem} :
    ∀ {prods : List Product},
      (∀ p ∈ prods, 0 ≤ p.stock) →
      (∀ it ∈ items, 0 ≤ it.quantity) →
      ∀ p ∈ incAllItems prods items, 0 ≤ p.stock := by
  induction items with
  | nil =>
    intro prods hnn _
    simpa [incAllItems] using hnn
  | cons it rest ih =>
    intro prods hnn hq
    simp only [incAllItems]
    apply ih
    · intro p hp
      rcases mem_adjStock hp with h | ⟨p1, hp1, rfl⟩
      · exact hnn p h
      · have h1 := hnn p1 (findProduct_mem hp1)
        have h2 := hq it (List.mem_cons_self _ _)
        show 0 ≤ p1.stock + it.quantity
        omega
    · exact fun it' h => hq it' (List.mem_cons_of_mem _ h)

/-! ### Branch equations for `createOrder` -/

theorem createOrder_eq_noQuery {st : St} {req : CreateReq} {env : Env}
    {oid : Nat} (h1 : resolveQuery req.user req.sessionId = none) :
    createOrder st req env oid =
      (.error (.api 400 "Session ID is required for guest checkout"), st) := by
  simp only [createOrder, h1]

theorem createOrder_eq_noCart {st : St} {req : CreateReq} {env : Env}
    {oid : Nat} {q : CartQuery}
    (h1 : resolveQuery req.user req.sessionId = some q)
    (h2 : findCart st.carts q = none) :
    createOrder st req env oid = (.error (.api 400 "Cart is empty"), st) := by
  simp only [createOrder, h1, h2]

theorem createOrder_eq_emptyCart {st : St} {req : CreateReq} {env : Env}
    {oid : Nat} {q : CartQuery} {cart : Cart}
    (h1 : resolveQuery req.user req.sessionId = some q)
    (h2 : findCart st.carts q = some cart)
    (h3 : cart.items = []) :
    createOrder st req env oid = (.error (.api 400 "Cart is empty"), st) := by
  simp only [createOrder, h1, h2, h3, List.isEmpty_nil, if_true]

theorem createOrder_eq_stockFail {st : St} {req : CreateReq} {env : Env}
    {oid : Nat} {q : CartQuery} {cart : Cart} {e : Err}
    (h1 : resolveQuery req.user req.sessionId = some q)
    (h2 : findCart st.carts q = some cart)
    (h3 : cart.items ≠ [])
    (h4 : stockCheck st.products cart.items = some e) :
    createOrder st req env oid = (.error e, st) := by
  have h3' : cart.items.isEmpty = false := by
    cases hi : cart.items with
    | nil => exact absurd hi h3
    | cons a l => simp
  simp only [createOrder, h1, h2, h3', h4, Bool.false_eq_true, if_false]

theorem createOrder_eq_orderSaveFail {st : St} {req : CreateReq} {env : Env}
    {oid : Nat} {q : CartQuery} {cart : Cart}
    (h1 : resolveQuery req.user req.sessionId = some q)
    (h2 : findCart st.carts q = some cart)
    (h3 : cart.items ≠ [])
    (h4 : stockCheck st.products cart.items = none)
    (h5 : env.orderSaveOk = false) :
    createOrder st req env oid = (.error (.saveFail "order"), st) := by
  have h3' : cart.items.isEmpty = false := by
    cases hi : cart.items with
    | nil => exact absurd hi h3
    | cons a l => simp
  simp only [createOrder, h1, h2, h3', h4, h5, Bool.false_eq_true, if_false, if_true]

theorem createOrder_eq_cartSaveFail {st : St} {req : CreateReq} {env : Env}
    {oid : Nat} {q : CartQuery} {cart : Cart}
    (h1 : resolveQuery req.user req.sessionId = some q)
    (h2 : findCart st.carts q = some cart)
    (h3 : cart.items ≠ [])
    (h4 : stockCheck st.products cart.items = none)
    (h5 : env.orderSaveOk = true)
    (h6 : env.cartSaveOk = false) :
    createOrder st req env oid =
      (.error (.saveFail "cart"),
        { st with
          orders := st.orders ++
            [buildOrder req cart oid (cart.items.map (snapItem st.products))]
          products := decAllItems st.products cart.items }) := by
  have h3' : cart.items.isEmpty = false := by
    cases hi : cart.items with
    | nil => exact absurd hi h3
    | cons a l => simp
  simp only [createOrder, h1, h2, h3', h4, h5, h6, Bool.false_eq_true,
    Bool.true_eq_false, if_false, if_true]

theorem createOrder_eq_success {st : St} {req : CreateReq} {env : Env}
    {oid : Nat} {q : CartQuery} {cart : Cart}
    (h1 : resolveQuery req.user req.sessionId = some q)
    (h2 : findCart st.carts q = some cart)
    (h3 : cart.items ≠ [])
    (h4 : stockCheck st.products cart.items = none)
    (h5 : env.orderSaveOk = true)
    (h6 : env.cartSaveOk = true) :
    createOrder st req env oid =
      (.ok (buildOrder req cart oid (cart.items.map (snapItem st.products))),
        { st with
          orders := st.orders ++
            [buildOrder req cart oid (cart.items.map (snapItem st.products))]
          products := decAllItems st.products cart.items
          carts := saveCart st.carts (clearCart cart) }) := by
  have h3' : cart.items.isEmpty = false := by
    cases hi : cart.items with
    | nil => exact absurd hi h3
    | cons a l => simp
  simp only [createOrder, h1, h2, h3', h4, h5, h6, Bool.false_eq_true,
    Bool.true_eq_false, if_false, if_true]

/-! ### Branch equations for `cancelOrder` and `updateOrderStatus` -/

/-- The history entry appended by a successful cancellation. -/
def cancelEntry (reason : Option String) : HistoryEntry :=
  { status := "cancelled", note := jsOr reason "Order cancelled by user" }

/-- The updated order document written by a successful cancellation. -/
def cancelledOrder (order : Order) (reason : Option String) : Order :=
  { order with
    status := "cancelled"
    statusHistory := order.statusHistory ++ [cancelEntry reason] }

theorem cancelOrder_eq_notFound {st : St} {u : Requester} {oid : Nat}
    {reason : Option String} (h1 : findOrder st.orders oid = none) :
    cancelOrder st u oid reason = (.error (.api 404 "Order not found"), st) := by
  simp only [cancelOrder, h1]

theorem cancelOrder_eq_forbidden {st : St} {u : Requester} {oid : Nat}
    {reason : Option String} {order : Order}
    (h1 : findOrder st.orders oid = some order)
    (h2 : (u.role != "admin" && ownerMismatch order.user u.id) = true) :
    cancelOrder st u oid reason =
      (.error (.api 403 "You are not authorized to cancel this order"), st) := by
  simp only [cancelOrder, h1, h2, if_true]

theorem cancelOrder_eq_badStatus {st : St} {u : Requester} {oid : Nat}
    {reason : Option String} {order : Order}
    (h1 : findOrder st.orders oid = some order)
    (h2 : (u.role != "admin" && ownerMismatch order.user u.id) = false)
    (h3 : (order.status == "pending" || order.status == "processing") = false) :
    cancelOrder st u oid reason =
      (.error (.api 400 "This order cannot be cancelled"), st) := by
  simp only [cancelOrder, h1, h2, h3, Bool.false_eq_true, if_false,
    Bool.not_false, if_true]

theorem cancelOrder_eq_success {st : St} {u : Requester} {oid : Nat}
    {reason : Option String} {order : Order}
    (h1 : findOrder st.orders oid = some order)
    (h2 : (u.role != "admin" && ownerMismatch order.user u.id) = false)
    (h3 : (order.status == "pending" || order.status == "processing") = true) :
    cancelOrder st u oid reason =
      (.ok (cancelledOrder order reason),
        { st with
          orders := saveOrder st.orders (cancelledOrder order reason)
          products := incAllItems st.products order.items }) := by
  simp only [cancelOrder, h1, h2, h3, Bool.false_eq_true, if_false,
    Bool.not_true, cancelledOrder, cancelEntry]

theorem updateOrderStatus_eq_notFound {st : St} {oid : Nat} {status : String}
    {note : Option String} (h1 : findOrder st.orders oid = none) :
    updateOrderStatus st oid status note =
      (.error (.api 404 "Order not found"), st) := by
  simp only [updateOrderStatus, h1]

/-- The updated order document written by `updateOrderStatus`. -/
def restatusedOrder (order : Order) (status : String)
    (note : Option String) : Order :=
  { order with
    status := status
    statusHistory := order.statusHistory ++
      [{ status := status, note := jsOr note ("Status updated to " ++ status) }] }

theorem updateOrderStatus_eq_found {st : St} {oid : Nat} {status : String}
    {note : Option String} {order : Order}
    (h1 : findOrder st.orders oid = some order) :
    updateOrderStatus st oid status note =
      (.ok (restatusedOrder order status note),
        { st with orders := saveOrder st.orders (restatusedOrder order status note) }) := by
  simp only [updateOrderStatus, h1, restatusedOrder]

/-! ### Preservation of the C1 invariant -/

theorem wf_createOrder (st : St) (req : CreateReq) (env : Env) (oid : Nat)
    (h : Wf st) : Wf (createOrder st req env oid).2 := by
  obtain ⟨hnn, hcarts, horders⟩ := h
  cases hq : resolveQuery req.user req.sessionId with
  | none => rw [createOrder_eq_noQuery hq]; exact ⟨hnn, hcarts, horders⟩
  | some q =>
    cases hc : findCart st.carts q with
    | none => rw [createOrder_eq_noCart hq hc]; exact ⟨hnn, hcarts, horders⟩
    | some cart =>
      by_cases he : cart.items = []
      · rw [createOrder_eq_emptyCart hq hc he]; exact ⟨hnn, hcarts, horders⟩
      · cases hs : stockCheck st.products cart.items with
        | some e =>
          rw [createOrder_eq_stockFail hq hc he hs]
          exact ⟨hnn, hcarts, horders⟩
        | none =>
          have hcart := hcarts cart (findCart_mem hc)
          have hchk := (stockCheck_none_iff st.products cart.items).mp hs
          have hnn2 : ∀ p ∈ decAllItems st.products cart.items, 0 ≤ p.stock :=
            decAll_nonneg hnn hcart.1 hchk
          have horders2 : ∀ o ∈ st.orders ++
              [buildOrder req cart oid (cart.items.map (snapItem st.products))],
              orderOk o := by
            intro o ho
            rcases List.mem_append.mp ho with h1 | h1
            · exact horders o h1
            · rcases List.mem_singleton.mp h1 with rfl
              intro it hit
              simp only [buildOrder, List.mem_map] at hit
              rcases hit with ⟨it0, hit0, rfl⟩
              have := hcart.2 it0 hit0
              unfold snapItem
              cases findProduct st.products it0.product <;> simpa
          cases ho : env.orderSaveOk with
          | false =>
            rw [createOrder_eq_orderSaveFail hq hc he hs ho]
            exact ⟨hnn, hcarts, horders⟩
          | true =>
            cases hcs : env.cartSaveOk with
            | false =>
              rw [createOrder_eq_cartSaveFail hq hc he hs ho hcs]
              exact ⟨hnn2, hcarts, horders2⟩
            | true =>
              rw [createOrder_eq_success hq hc he hs ho hcs]
              refine ⟨hnn2, ?_, horders2⟩
              intro c hcmem
              rcases mem_saveCart hcmem with h1 | rfl
              · exact hcarts c h1
              · exact ⟨by simp [clearCart], by simp [clearCart]⟩

theorem wf_cancelOrder (st : St) (u : Requester) (oid : Nat)
    (reason : Option String) (h : Wf st) : Wf (cancelOrder st u oid reason).2 := by
  obtain ⟨hnn, hcarts, horders⟩ := h
  cases h1 : findOrder st.orders oid with
  | none => rw [cancelOrder_eq_notFound h1]; exact ⟨hnn, hcarts, horders⟩
  | some order =>
    cases h2 : (u.role != "admin" && ownerMismatch order.user u.id) with
    | true => rw [cancelOrder_eq_forbidden h1 h2]; exact ⟨hnn, hcarts, horders⟩
    | false =>
      cases h3 : (order.status == "pending" || order.status == "processing") with
      | false => rw [cancelOrder_eq_badStatus h1 h2 h3]; exact ⟨hnn, hcarts, horders⟩
      | true =>
        rw [cancelOrder_eq_success h1 h2 h3]
        have hord := horders order (findOrder_mem h1)
        refine ⟨incAll_nonneg hnn hord, hcarts, ?_⟩
        intro o ho
        rcases mem_saveOrder ho with h4 | rfl
        · exact horders o h4
        · intro it hit
          exact hord it hit

theorem wf_stepOp (st : St) (op : Op) (h : Wf st) : Wf (stepOp st op) := by
  cases op with
  | create req env oid => exact wf_createOrder st req env oid h
  | cancel u oid reason => exact wf_cancelOrder st u oid reason h

theorem wf_runOps (ops : List Op) :
    ∀ (st : St), Wf st → Wf (runOps st ops) := by
  induction ops with
  | nil => intro st h; exact h
  | cons op rest ih => intro st h; exact ih _ (wf_stepOp st op h)

/-! ### List-index lemmas for the cart controller -/

theorem get?_set_self {α : Type} : ∀ (l : List α) (i : Nat) (a : α),
    i < l.length → (l.set i a).get? i = some a
  | [], i, a, h => by simp at h
  | _ :: _, 0, a, _ => rfl
  | x :: xs, i + 1, a, h =>
    get?_set_self xs i a (by simpa using h)

theorem get?_eraseIdx_ge {α : Type} : ∀ (l : List α) (i j : Nat), i ≤ j →
    (l.eraseIdx i).get? j = l.get? (j + 1)
  | [], i, j, _ => by cases j <;> simp [List.eraseIdx]
  | _ :: _, 0, j, _ => rfl
  | _ :: _, i + 1, 0, h => by omega
  | x :: xs, i + 1, j + 1, h =>
    get?_eraseIdx_ge xs i j (by omega)

theorem nodup_get?_ne {α : Type} : ∀ (l : List α), l.Nodup →
    ∀ (i j : Nat) (x y : α), i < j →
      l.get? i = some x → l.get? j = some y → x ≠ y
  | [], _, i, _, x, _, _, hx, _ => by simp at hx
  | a :: l, h, 0, j + 1, x, y, _, hx, hy => by
    obtain rfl : a = x := by simpa using hx
    have hy' : y ∈ l := List.get?_mem hy
    intro he
    exact (List.nodup_cons.mp h).1 (he ▸ hy')
  | _ :: _, _, _ + 1, 0, _, _, hij, _, _ => by omega
  | a :: l, h, i + 1, j + 1, x, y, hij, hx, hy =>
    nodup_get?_ne l (List.nodup_cons.mp h).2 i j x y (by omega) hx hy

theorem findIndex_lt_length {α : Type} {p : α → Bool} :
    ∀ {l : List α} {i : Nat}, findIndex p l = some i → i < l.length := by
  intro l
  induction l with
  | nil => intro i h; simp [findIndex] at h
  | cons a l ih =>
    intro i h
    by_cases h1 : p a
    · simp only [findIndex, if_pos h1, Option.some.injEq] at h
      subst h
      simp
    · simp only [findIndex, if_neg h1] at h
      cases h2 : findIndex p l with
      | none => rw [h2] at h; simp at h
      | some j =>
        rw [h2] at h
        simp only [Option.map_some', Option.some.injEq] at h
        subst h
        have := ih h2
        simp only [List.length_cons]
        omega

theorem findIndex_get? {α : Type} {p : α → Bool} :
    ∀ {l : List α} {i : Nat}, findIndex p l = some i →
      ∃ a, l.get? i = some a ∧ p a = true := by
  intro l
  induction l with
  | nil => intro i h; simp [findIndex] at h
  | cons a l ih =>
    intro i h
    by_cases h1 : p a
    · simp only [findIndex, if_pos h1, Option.some.injEq] at h
      subst h
      exact ⟨a, rfl, h1⟩
    · simp only [findIndex, if_neg h1] at h
      cases h2 : findIndex p l with
      | none => rw [h2] at h; simp at h
      | some j =>
        rw [h2] at h
        simp only [Option.map_some', Option.some.injEq] at h
        subst h
        rcases ih h2 with ⟨b, hb, hpb⟩
        exact ⟨b, hb, hpb⟩

theorem get?_map_list {α β : Type} (f : α → β) :
    ∀ (l : List α) (n : Nat), (l.map f).get? n = (l.get? n).map f
  | [], n => by cases n <;> rfl
  | _ :: _, 0 => rfl
  | _ :: xs, n + 1 => get?_map_list f xs n

/-- `recalculateTotals` leaves the line-item list itself unchanged. -/
theorem recalcTotals_items (c : Cart) : (recalcTotals c).items = c.items := rfl

/-! ## The claims -/

/-! ### Claim C1 -/

/-- The product used by the C1 counterexample: stock 5. -/
def c1Prod : Product := { pid := 0, name := "P", sku := "S", price := 10, stock := 5 }

/-- A cart holding TWO line items for the same product, 3 units each. -/
def c1Cart : Cart :=
  { cid := 0, user := some 1, sessionId := none
    items :=
      [{ itemId := 1, product := 0, variant := none, price := 10, quantity := 3,
         savedForLater := false },
       { itemId := 2, product := 0, variant := none, price := 10, quantity := 3,
         savedForLater := false }]
    appliedCoupons := [], subtotal := 60, discountTotal := 0, taxTotal := 0,
    shippingTotal := 0, grandTotal := 60 }

def c1St : St := { products := [c1Prod], carts := [c1Cart], orders := [] }

def c1Req : CreateReq :=
  { user := some { id := 1, email := "u@example.com", role := "customer" }
    sessionId := none, email := none, shippingAddress := "addr"
    billingAddress := "addr", paymentMethod := "card", shippingMethod := "std"
    notes := none }

def c1Env : Env := { orderSaveOk := true, cartSaveOk := true }

/-- C1, counterexample: starting from stock 5 ≥ 0, a single `createOrder`
run to completion — no concurrency, no failure — on a cart holding two
line items for the same product (3 + 3 = 6 units) succeeds (the
per-item stock check compares each item against the same unmodified
stock) and drives the product's stock to −1 < 0. -/
theorem createOrder_duplicate_product_oversells :
    c1Prod.stock = 5 ∧ (0 : Int) ≤ 5 ∧
    (createOrder c1St c1Req c1Env 1).1.isOk = true ∧
    findProduct (runOps c1St [.create c1Req c1Env 1]).products 0 =
      some { pid := 0, name := "P", sku := "S", price := 10, stock := -1 } ∧
    (-1 : Int) < 0 := by
  exact ⟨rfl, by decide, rfl, rfl, by decide⟩

/-- C1 (amended): the stock-non-negativity invariant does hold for every
sequence of `createOrder`/`cancelOrder` requests run to completion,
PROVIDED every cart references each product in at most one line item and
all cart and order line-item quantities are non-negative; the original
claim's "even when a single cart contains several line items referencing
the same product" is exactly the case in which it fails. -/
theorem stock_nonneg_invariant_amended (st : St) (ops : List Op)
    (h : Wf st) : ∀ p ∈ (runOps st ops).products, 0 ≤ p.stock :=
  (wf_runOps ops st h).1

/-- A well-formed variant of the C1 state: one line item per product. -/
def c1GoodCart : Cart :=
  { c1Cart with
    items := [{ itemId := 1, product := 0, variant := none, price := 10,
                quantity := 3, savedForLater := false }] }

def c1GoodSt : St := { products := [c1Prod], carts := [c1GoodCart], orders := [] }

theorem stock_nonneg_invariant_amended_witness :
    Wf c1GoodSt ∧
    ∀ p ∈ (runOps c1GoodSt [.create c1Req c1Env 1]).products, 0 ≤ p.stock := by
  have hwf : Wf c1GoodSt := by
    unfold Wf stocksNonneg cartOk orderOk
    refine ⟨by decide, ?_, by decide⟩
    intro c hc
    obtain rfl : c = c1GoodCart := by simpa [c1GoodSt] using hc
    exact ⟨by decide, by decide⟩
  exact ⟨hwf, stock_nonneg_invariant_amended c1GoodSt [.create c1Req c1Env 1] hwf⟩

/-! ### Claim C2 -/

/-- C2 (amended): `createOrder` is atomic for every failure EXCEPT a
persistence failure of the final `cart.save()`: any error other than the
cart-save failure leaves the state exactly as it was, while a cart-save
failure happens after the order insert and the stock decrements have
committed and the code performs no compensating re-increment — the stock
stays decremented (only the cart itself is unchanged). -/
theorem createOrder_atomic_amended (st : St) (req : CreateReq) (env : Env)
    (oid : Nat) (e : Err) (h : (createOrder st req env oid).1 = .error e) :
    (e ≠ .saveFail "cart" → (createOrder st req env oid).2 = st) ∧
    (e = .saveFail "cart" →
      ∃ q cart, resolveQuery req.user req.sessionId = some q ∧
        findCart st.carts q = some cart ∧
        (createOrder st req env oid).2.carts = st.carts ∧
        ∀ pid, findProduct (createOrder st req env oid).2.products pid =
          (findProduct st.products pid).map
            (fun p => { p with stock := p.stock - cQty cart.items pid })) := by
  cases hq : resolveQuery req.user req.sessionId with
  | none =>
    rw [createOrder_eq_noQuery hq] at h ⊢
    obtain rfl : Err.api 400 "Session ID is required for guest checkout" = e :=
      Except.error.inj h
    exact ⟨fun _ => rfl, fun hc => absurd hc (by decide)⟩
  | some q =>
    cases hc : findCart st.carts q with
    | none =>
      rw [createOrder_eq_noCart hq hc] at h ⊢
      obtain rfl : Err.api 400 "Cart is empty" = e := Except.error.inj h
      exact ⟨fun _ => rfl, fun hce => absurd hce (by decide)⟩
    | some cart =>
      by_cases he : cart.items = []
      · rw [createOrder_eq_emptyCart hq hc he] at h ⊢
        obtain rfl : Err.api 400 "Cart is empty" = e := Except.error.inj h
        exact ⟨fun _ => rfl, fun hce => absurd hce (by decide)⟩
      · cases hs : stockCheck st.products cart.items with
        | some e' =>
          rw [createOrder_eq_stockFail hq hc he hs] at h ⊢
          obtain rfl : e' = e := Except.error.inj h
          rcases stockCheck_some_shape hs with ⟨s, rfl⟩
          exact ⟨fun _ => rfl, fun hce => absurd hce (by simp)⟩
        | none =>
          cases ho : env.orderSaveOk with
          | false =>
            rw [createOrder_eq_orderSaveFail hq hc he hs ho] at h ⊢
            obtain rfl : Err.saveFail "order" = e := Except.error.inj h
            exact ⟨fun _ => rfl, fun hce => absurd hce (by decide)⟩
          | true =>
            cases hcs : env.cartSaveOk with
            | false =>
              rw [createOrder_eq_cartSaveFail hq hc he hs ho hcs] at h ⊢
              obtain rfl : Err.saveFail "cart" = e := Except.error.inj h
              refine ⟨fun hne => absurd rfl hne, fun _ => ⟨q, cart, rfl, hc, rfl, ?_⟩⟩
              intro pid
              exact findProduct_decAllItems cart.items st.products pid
            | true =>
              rw [createOrder_eq_success hq hc he hs ho hcs] at h
              exact absurd h (by simp)

def c2Req : CreateReq := { c1Req with user := none, sessionId := none }

theorem createOrder_atomic_amended_witness :
    (createOrder c1St c2Req c1Env 1).1 =
      .error (.api 400 "Session ID is required for guest checkout") ∧
    (createOrder c1St c2Req c1Env 1).2 = c1St := by
  refine ⟨rfl, ?_⟩
  exact (createOrder_atomic_amended c1St c2Req c1Env 1 _ rfl).1 (by decide)

def c2FailEnv : Env := { orderSaveOk := true, cartSaveOk := false }

/-- A cart with a single 2-unit line item for the stock-5 product. -/
def c2Cart : Cart :=
  { c1Cart with
    items := [{ itemId := 1, product := 0, variant := none, price := 10,
                quantity := 2, savedForLater := false }] }

def c2St : St := { products := [c1Prod], carts := [c2Cart], orders := [] }

/-- C2, counterexample: when the final `cart.save()` fails, `createOrder`
surfaces the error, yet the product's stock has been decremented from 5
to 3 and is NOT re-incremented before the error surfaces — the claimed
rollback does not exist in the code (the order also stays persisted). -/
theorem createOrder_cartSaveFail_no_rollback :
    (createOrder c2St c1Req c2FailEnv 1).1 = .error (.saveFail "cart") ∧
    findProduct (createOrder c2St c1Req c2FailEnv 1).2.products 0 =
      some { pid := 0, name := "P", sku := "S", price := 10, stock := 3 } ∧
    (3 : Int) ≠ 5 ∧
    (createOrder c2St c1Req c2FailEnv 1).2.orders.length = 1 := by
  exact ⟨rfl, rfl, by decide, rfl⟩

/-! ### Claim C3 -/

/-- C3 (confirmed): when every cart product exists in the catalog and at
least one line item requests more than its product's current stock,
`createOrder` fails with the insufficient-stock error
`ApiError(400, "Not enough stock for <product name>")` naming an
offending product, and the whole state — every product's stock and the
cart — is exactly unchanged. -/
theorem createOrder_insufficient_stock (st : St) (req : CreateReq)
    (env : Env) (oid : Nat) (q : CartQuery) (cart : Cart)
    (hq : resolveQuery req.user req.sessionId = some q)
    (hc : findCart st.carts q = some cart)
    (hall : ∀ it ∈ cart.items, ∃ p, findProduct st.products it.product = some p)
    (hbad : ∃ it ∈ cart.items, ∃ p, findProduct st.products it.product = some p ∧
      p.stock < it.quantity) :
    ∃ it p, it ∈ cart.items ∧ findProduct st.products it.product = some p ∧
      p.stock < it.quantity ∧
      createOrder st req env oid =
        (.error (.api 400 ("Not enough stock for " ++ p.name)), st) := by
  have hne : cart.items ≠ [] := by
    rcases hbad with ⟨it, hit, _⟩
    intro h
    rw [h] at hit
    simp at hit
  rcases stockCheck_fails hall hbad with ⟨it, p, hmem, hp, hs, hchk⟩
  exact ⟨it, p, hmem, hp, hs, createOrder_eq_stockFail hq hc hne hchk⟩

/-- A catalog with plenty of P (stock 5) and too little Q (stock 1). -/
def c3Prods : List Product :=
  [{ pid := 0, name := "P", sku := "S", price := 10, stock := 5 },
   { pid := 1, name := "Q", sku := "T", price := 20, stock := 1 }]

/-- A cart asking for 2 × P (fine) and 2 × Q (more than Q's stock). -/
def c3Cart : Cart :=
  { cid := 0, user := some 1, sessionId := none
    items :=
      [{ itemId := 1, product := 0, variant := none, price := 10, quantity := 2,
         savedForLater := false },
       { itemId := 2, product := 1, variant := none, price := 20, quantity := 2,
         savedForLater := false }]
    appliedCoupons := [], subtotal := 60, discountTotal := 0, taxTotal := 0,
    shippingTotal := 0, grandTotal := 60 }

def c3St : St := { products := c3Prods, carts := [c3Cart], orders := [] }

theorem createOrder_insufficient_stock_witness :
    (∃ it p, it ∈ c3Cart.items ∧ findProduct c3St.products it.product = some p ∧
      p.stock < it.quantity ∧
      createOrder c3St c1Req c1Env 1 =
        (.error (.api 400 ("Not enough stock for " ++ p.name)), c3St)) := by
  refine createOrder_insufficient_stock c3St c1Req c1Env 1 (.byUser 1) c3Cart
    rfl rfl ?_ ?_
  · intro it hit
    rcases List.mem_cons.mp hit with rfl | hit
    · exact ⟨_, rfl⟩
    rcases List.mem_cons.mp hit with rfl | hit
    · exact ⟨_, rfl⟩
    simp at hit
  · exact ⟨{ itemId := 2, product := 1, variant := none, price := 20, quantity := 2, savedForLater := false },
      by decide,
      { pid := 1, name := "Q", sku := "T", price := 20, stock := 1 },
      rfl, by decide⟩

/-! ### Claim C4 -/

/-- C4 (confirmed): on a resolvable non-empty cart all of whose line
items have sufficient stock, and with both saves succeeding,
`createOrder` succeeds; the order's five aggregate totals are copied
verbatim from the cart's cached values; every product's stock drops by
exactly the total quantity the cart orders for it; and the saved cart
has zero items, zero applied coupons and all five cached totals zero. -/
theorem createOrder_success_spec (st : St) (req : CreateReq) (env : Env)
    (oid : Nat) (q : CartQuery) (cart : Cart)
    (hq : resolveQuery req.user req.sessionId = some q)
    (hc : findCart st.carts q = some cart)
    (hne : cart.items ≠ [])
    (hstock : ∀ it ∈ cart.items, ∃ p, findProduct st.products it.product = some p ∧
      it.quantity ≤ p.stock)
    (ho : env.orderSaveOk = true) (hcs : env.cartSaveOk = true) :
    ∃ o, (createOrder st req env oid).1 = .ok o ∧
      o.subtotal = cart.subtotal ∧
      o.discountTotal = cart.discountTotal ∧
      o.taxTotal = cart.taxTotal ∧
      o.shippingTotal = cart.shippingTotal ∧
      o.grandTotal = cart.grandTotal ∧
      (∀ pid, findProduct (createOrder st req env oid).2.products pid =
        (findProduct st.products pid).map
          (fun p => { p with stock := p.stock - cQty cart.items pid })) ∧
      ∃ cart', (createOrder st req env oid).2.carts = saveCart st.carts cart' ∧
        cart'.items = [] ∧ cart'.appliedCoupons = [] ∧ cart'.subtotal = 0 ∧
        cart'.discountTotal = 0 ∧ cart'.taxTotal = 0 ∧
        cart'.shippingTotal = 0 ∧ cart'.grandTotal = 0 := by
  have hs := (stockCheck_none_iff st.products cart.items).mpr hstock
  rw [createOrder_eq_success hq hc hne hs ho hcs]
  refine ⟨_, rfl, rfl, rfl, rfl, rfl, rfl, ?_, clearCart cart, rfl, rfl, rfl,
    rfl, rfl, rfl, rfl, rfl⟩
  intro pid
  exact findProduct_decAllItems cart.items st.products pid

/-- The example-scenario state from the spec: 2 × P (stock 5, price 10)
and 1 × Q (stock 1, price 20), cached totals 40. -/
def c4Cart : Cart :=
  { cid := 0, user := some 1, sessionId := none
    items :=
      [{ itemId := 1, product := 0, variant := none, price := 10, quantity := 2,
         savedForLater := false },
       { itemId := 2, product := 1, variant := none, price := 20, quantity := 1,
         savedForLater := false }]
    appliedCoupons := [], subtotal := 40, discountTotal := 0, taxTotal := 0,
    shippingTotal := 0, grandTotal := 40 }

def c4St : St := { products := c3Prods, carts := [c4Cart], orders := [] }

theorem createOrder_success_spec_witness :
    ∃ o, (createOrder c4St c1Req c1Env 1).1 = .ok o ∧
      o.subtotal = c4Cart.subtotal ∧
      o.discountTotal = c4Cart.discountTotal ∧
      o.taxTotal = c4Cart.taxTotal ∧
      o.shippingTotal = c4Cart.shippingTotal ∧
      o.grandTotal = c4Cart.grandTotal ∧
      (∀ pid, findProduct (createOrder c4St c1Req c1Env 1).2.products pid =
        (findProduct c4St.products pid).map
          (fun p => { p with stock := p.stock - cQty c4Cart.items pid })) ∧
      ∃ cart', (createOrder c4St c1Req c1Env 1).2.carts = saveCart c4St.carts cart' ∧
        cart'.items = [] ∧ cart'.appliedCoupons = [] ∧ cart'.subtotal = 0 ∧
        cart'.discountTotal = 0 ∧ cart'.taxTotal = 0 ∧
        cart'.shippingTotal = 0 ∧ cart'.grandTotal = 0 := by
  refine createOrder_success_spec c4St c1Req c1Env 1 (.byUser 1) c4Cart
    rfl rfl (by decide) ?_ rfl rfl
  intro it hit
  rcases List.mem_cons.mp hit with rfl | hit
  · exact ⟨_, rfl, by decide⟩
  rcases List.mem_cons.mp hit with rfl | hit
  · exact ⟨_, rfl, by decide⟩
  simp at hit

/-! ### Claim C5 -/

/-- C5 (confirmed): for an existing order whose requester is authorized
(admin, owner, or the order is a guest order), cancelling an order in
status `pending` or `processing` succeeds: the status becomes
`cancelled`, the history entry `{status: "cancelled", note: reason ||
"Order cancelled by user"}` is appended, and every product's stock rises
by exactly the total quantity the order's line items hold for it; in any
other status — `cancelled` included — it fails with
`ApiError(400, "This order cannot be cancelled")` and the state is
unchanged; and immediately re-cancelling a just-cancelled order fails
the same way without touching the state again, so stock is never
double-restored. -/
theorem cancelOrder_spec (st : St) (u : Requester) (oid : Nat)
    (reason reason2 : Option String) (order : Order)
    (hfind : findOrder st.orders oid = some order)
    (hauth : u.role = "admin" ∨ order.user = none ∨ order.user = some u.id) :
    ((order.status = "pending" ∨ order.status = "processing") →
      (cancelOrder st u oid reason).1 = .ok (cancelledOrder order reason) ∧
      (cancelledOrder order reason).status = "cancelled" ∧
      (cancelledOrder order reason).statusHistory =
        order.statusHistory ++
          [{ status := "cancelled", note := jsOr reason "Order cancelled by user" }] ∧
      (∀ pid, findProduct (cancelOrder st u oid reason).2.products pid =
        (findProduct st.products pid).map
          (fun p => { p with stock := p.stock + oQty order.items pid })) ∧
      (cancelOrder st u oid reason).2.orders =
        saveOrder st.orders (cancelledOrder order reason) ∧
      cancelOrder (cancelOrder st u oid reason).2 u oid reason2 =
        (.error (.api 400 "This order cannot be cancelled"),
          (cancelOrder st u oid reason).2)) ∧
    (¬(order.status = "pending" ∨ order.status = "processing") →
      cancelOrder st u oid reason =
        (.error (.api 400 "This order cannot be cancelled"), st)) := by
  have hmm : ownerMismatch order.user u.id = true → order.user ≠ none ∧
      order.user ≠ some u.id := by
    intro hm
    cases hou : order.user with
    | none => rw [hou] at hm; simp [ownerMismatch] at hm
    | some ou =>
      rw [hou] at hm
      simp only [ownerMismatch, bne_iff_ne, ne_eq] at hm
      exact ⟨by simp, by simpa using hm⟩
  have h2 : (u.role != "admin" && ownerMismatch order.user u.id) = false := by
    rcases hauth with h | h | h
    · simp [h]
    · simp [ownerMismatch, h]
    · simp [ownerMismatch, h]
  constructor
  · intro hst
    have h3 : (order.status == "pending" || order.status == "processing") = true := by
      rcases hst with h | h <;> simp [h]
    rw [cancelOrder_eq_success hfind h2 h3]
    refine ⟨rfl, rfl, rfl, ?_, rfl, ?_⟩
    · intro pid
      exact findProduct_incAllItems order.items st.products pid
    · have hoid0 : order.oid = oid := findOrder_oid hfind
      have hoid : (cancelledOrder order reason).oid = oid := hoid0
      have hfind2 : findOrder
          (saveOrder st.orders (cancelledOrder order reason))
          oid = some (cancelledOrder order reason) :=
        findOrder_saveOrder (cancelledOrder order reason) hfind hoid
      have h2' : (u.role != "admin" &&
          ownerMismatch (cancelledOrder order reason).user u.id) = false := h2
      have h3' : ((cancelledOrder order reason).status == "pending" ||
          (cancelledOrder order reason).status == "processing") = false := rfl
      exact cancelOrder_eq_badStatus hfind2 h2' h3'
  · intro hst
    push_neg at hst
    have h3 : (order.status == "pending" || order.status == "processing") = false := by
      rw [Bool.or_eq_false_iff]
      constructor <;> rw [beq_eq_false_iff_ne]
      · exact hst.1
      · exact hst.2
    exact cancelOrder_eq_badStatus hfind h2 h3

/-- A pending order for 2 × P, owned by user 1. -/
def c5Order : Order :=
  { oid := 3, user := some 1, email := some "u@example.com"
    items := [{ product := 0, variant := none, name := "P", sku := "S",
                price := 10, quantity := 2, subtotal := 20 }]
    billingAddress := "addr", shippingAddress := "addr", paymentMethod := "card"
    shippingMethod := "std", subtotal := 20, discountTotal := 0, taxTotal := 0
    shippingTotal := 0, grandTotal := 20, notes := none, appliedCoupons := []
    status := "pending"
    statusHistory := [{ status := "pending", note := "Order created" }] }

def c5St : St := { products := [c1Prod], carts := [], orders := [c5Order] }

def c5U : Requester := { id := 1, email := "u@example.com", role := "customer" }

theorem cancelOrder_spec_witness :
    (c5Order.status = "pending" ∨ c5Order.status = "processing") ∧
    (cancelOrder c5St c5U 3 none).1 = .ok (cancelledOrder c5Order none) ∧
    cancelOrder (cancelOrder c5St c5U 3 none).2 c5U 3 none =
      (.error (.api 400 "This order cannot be cancelled"),
        (cancelOrder c5St c5U 3 none).2) := by
  have h := (cancelOrder_spec c5St c5U 3 none none c5Order rfl
    (Or.inr (Or.inr rfl))).1 (Or.inl rfl)
  exact ⟨Or.inl rfl, h.1, h.2.2.2.2.2⟩

/-! ### Claim C6 -/

/-- An already-cancelled order (it was pending, then got cancelled). -/
def c6Order : Order :=
  { c5Order with
    status := "cancelled"
    statusHistory := [{ status := "pending", note := "Order created" },
                      { status := "cancelled", note := "Order cancelled by user" }] }

def c6St : St := { products := [c1Prod], carts := [], orders := [c6Order] }

/-- C6, counterexample: `updateOrderStatus` on an order whose current
status is `cancelled` does NOT fail with any error — the controller has
no status check at all — it succeeds and overwrites the status.  Here a
cancelled order is moved to `processing`. -/
theorem updateOrderStatus_cancelled_not_rejected :
    c6Order.status = "cancelled" ∧
    (updateOrderStatus c6St 3 "processing" none).1 =
      .ok (restatusedOrder c6Order "processing" none) ∧
    (restatusedOrder c6Order "processing" none).status = "processing" := by
  exact ⟨rfl, rfl, rfl⟩

/-- C6 (amended): `updateOrderStatus` performs no status restriction
whatsoever: on ANY existing order — a cancelled one included — it sets
the current status to the new status and appends the history entry
`{status: newStatus, note: note || "Status updated to <newStatus>"}`,
leaving the line items untouched.  Only a missing order is rejected
(404), never an illegal transition. -/
theorem updateOrderStatus_amended (st : St) (oid : Nat) (status : String)
    (note : Option String) (order : Order)
    (hfind : findOrder st.orders oid = some order) :
    ∃ o', updateOrderStatus st oid status note =
      (.ok o', { st with orders := saveOrder st.orders o' }) ∧
      o'.status = status ∧
      o'.statusHistory = order.statusHistory ++
        [{ status := status, note := jsOr note ("Status updated to " ++ status) }] ∧
      o'.items = order.items :=
  ⟨restatusedOrder order status note, updateOrderStatus_eq_found hfind,
    rfl, rfl, rfl⟩

theorem updateOrderStatus_amended_witness :
    c6Order.status = "cancelled" ∧
    ∃ o', updateOrderStatus c6St 3 "shipped" none =
      (.ok o', { c6St with orders := saveOrder c6St.orders o' }) ∧
      o'.status = "shipped" ∧
      o'.statusHistory = c6Order.statusHistory ++
        [{ status := "shipped", note := jsOr none ("Status updated to " ++ "shipped") }] ∧
      o'.items = c6Order.items := by
  exact ⟨rfl, updateOrderStatus_amended c6St 3 "shipped" none c6Order rfl⟩

/-! ### Claim C7 -/

theorem stockMsg_ne_emptyMsg (s : String) :
    "Not enough stock for " ++ s ≠ "Cart is empty" := by
  intro h
  have h2 := congrArg String.length h
  rw [String.length_append] at h2
  have h3 : ("Not enough stock for ").length = 21 := rfl
  have h4 : ("Cart is empty").length = 13 := rfl
  omega

/-- C7 (amended): `createOrder` tests only `cart.items.length === 0` and
never consults the saved-for-later flag: it fails with
`ApiError(400, "Cart is empty")` exactly when the resolved cart's item
list is empty — a cart whose items are all saved-for-later is NOT
rejected — and on success the order's line items and the stock
decrements range over ALL of `cart.items`, saved-for-later ones
included. -/
theorem createOrder_emptyCart_iff (st : St) (req : CreateReq) (env : Env)
    (oid : Nat) (q : CartQuery) (cart : Cart)
    (hq : resolveQuery req.user req.sessionId = some q)
    (hc : findCart st.carts q = some cart) :
    ((createOrder st req env oid).1 = .error (.api 400 "Cart is empty") ↔
      cart.items = []) ∧
    ∀ o, (createOrder st req env oid).1 = .ok o →
      o.items = cart.items.map (snapItem st.products) ∧
      (createOrder st req env oid).2.products =
        decAllItems st.products cart.items := by
  by_cases he : cart.items = []
  · rw [createOrder_eq_emptyCart hq hc he]
    exact ⟨⟨fun _ => he, fun _ => rfl⟩, fun o ho => absurd ho (by simp)⟩
  · cases hs : stockCheck st.products cart.items with
    | some e =>
      rw [createOrder_eq_stockFail hq hc he hs]
      rcases stockCheck_some_shape hs with ⟨s, rfl⟩
      refine ⟨⟨fun hcontra => ?_, fun h => absurd h he⟩,
        fun o ho => absurd ho (by simp)⟩
      have := Except.error.inj hcontra
      simp only [Err.api.injEq] at this
      exact absurd this.2 (stockMsg_ne_emptyMsg s)
    | none =>
      cases ho : env.orderSaveOk with
      | false =>
        rw [createOrder_eq_orderSaveFail hq hc he hs ho]
        refine ⟨⟨fun hcontra => ?_, fun h => absurd h he⟩,
          fun o hok => absurd hok (by simp)⟩
        have := Except.error.inj hcontra
        simp at this
      | true =>
        cases hcs : env.cartSaveOk with
        | false =>
          rw [createOrder_eq_cartSaveFail hq hc he hs ho hcs]
          refine ⟨⟨fun hcontra => ?_, fun h => absurd h he⟩,
            fun o hok => absurd hok (by simp)⟩
          have := Except.error.inj hcontra
          simp at this
        | true =>
          rw [createOrder_eq_success hq hc he hs ho hcs]
          refine ⟨⟨fun hcontra => absurd hcontra (by simp),
            fun h => absurd h he⟩, fun o hok => ?_⟩
          obtain rfl : buildOrder req cart oid
              (cart.items.map (snapItem st.products)) = o := Except.ok.inj hok
          exact ⟨rfl, rfl⟩

/-- A cart whose ONLY item is flagged saved-for-later. -/
def c7Cart : Cart :=
  { cid := 0, user := some 1, sessionId := none
    items := [{ itemId := 1, product := 0, variant := none, price := 10,
                quantity := 1, savedForLater := true }]
    appliedCoupons := [], subtotal := 0, discountTotal := 0, taxTotal := 0,
    shippingTotal := 0, grandTotal := 0 }

def c7St : St := { products := [c1Prod], carts := [c7Cart], orders := [] }

/-- C7, counterexample: a cart whose single line item is saved-for-later
is NOT rejected with the empty-cart error — `createOrder` succeeds, puts
the saved-for-later item on the order, and decrements its stock from 5
to 4. -/
theorem createOrder_savedForLater_not_excluded :
    c7Cart.items.length = 1 ∧
    (c7Cart.items.map (·.savedForLater)) = [true] ∧
    (createOrder c7St c1Req c1Env 1).1.isOk = true ∧
    (∀ o, (createOrder c7St c1Req c1Env 1).1 = .ok o → o.items.length = 1) ∧
    findProduct (createOrder c7St c1Req c1Env 1).2.products 0 =
      some { pid := 0, name := "P", sku := "S", price := 10, stock := 4 } := by
  refine ⟨rfl, rfl, rfl, ?_, rfl⟩
  intro o ho
  obtain rfl := Except.ok.inj ho
  rfl

/-- An empty cart for the C7 witness. -/
def c7ECart : Cart := { c7Cart with items := [] }

def c7ESt : St := { products := [c1Prod], carts := [c7ECart], orders := [] }

theorem createOrder_emptyCart_iff_witness :
    c7ECart.items = [] ∧
    (createOrder c7ESt c1Req c1Env 1).1 = .error (.api 400 "Cart is empty") := by
  refine ⟨rfl, ?_⟩
  exact ((createOrder_emptyCart_iff c7ESt c1Req c1Env 1 (.byUser 1) c7ECart
    rfl rfl).1).mpr rfl

/-! ### Claim C8 -/

/-- C8 (amended): each order line item snapshots its cart line item with
the product NAME and SKU read fresh from the current product record, but
the unit price is the price captured in the cart line item at
add-to-cart time — it is NOT re-read from the product — and the subtotal
is that cart price times the quantity. -/
theorem createOrder_snapshot_amended (st : St) (req : CreateReq) (env : Env)
    (oid : Nat) (q : CartQuery) (cart : Cart) (o : Order)
    (hq : resolveQuery req.user req.sessionId = some q)
    (hc : findCart st.carts q = some cart)
    (hok : (createOrder st req env oid).1 = .ok o) :
    o.items = cart.items.map (snapItem st.products) ∧
    ∀ it ∈ cart.items, ∀ p, findProduct st.products it.product = some p →
      snapItem st.products it =
        { product := it.product, variant := it.variant, name := p.name,
          sku := p.sku, price := it.price, quantity := it.quantity,
          subtotal := it.price * it.quantity } := by
  have hitems : o.items = cart.items.map (snapItem st.products) := by
    by_cases he : cart.items = []
    · rw [createOrder_eq_emptyCart hq hc he] at hok
      exact absurd hok (by simp)
    · cases hs : stockCheck st.products cart.items with
      | some e =>
        rw [createOrder_eq_stockFail hq hc he hs] at hok
        exact absurd hok (by simp)
      | none =>
        cases ho : env.orderSaveOk with
        | false =>
          rw [createOrder_eq_orderSaveFail hq hc he hs ho] at hok
          exact absurd hok (by simp)
        | true =>
          cases hcs : env.cartSaveOk with
          | false =>
            rw [createOrder_eq_cartSaveFail hq hc he hs ho hcs] at hok
            exact absurd hok (by simp)
          | true =>
            rw [createOrder_eq_success hq hc he hs ho hcs] at hok
            obtain rfl := Except.ok.inj hok
            rfl
  refine ⟨hitems, ?_⟩
  intro it _ p hp
  unfold snapItem
  rw [hp]

/-- Catalog for the C8 counterexample: the product's CURRENT price is 15,
but the cart captured price 10 at add time. -/
def c8Prod : Product := { pid := 0, name := "N", sku := "K", price := 15, stock := 5 }

def c8Cart : Cart :=
  { cid := 0, user := some 1, sessionId := none
    items := [{ itemId := 1, product := 0, variant := none, price := 10,
                quantity := 2, savedForLater := false }]
    appliedCoupons := [], subtotal := 20, discountTotal := 0, taxTotal := 0,
    shippingTotal := 0, grandTotal := 20 }

def c8St : St := { products := [c8Prod], carts := [c8Cart], orders := [] }

/-- C8, counterexample: on a successful `createOrder` the order line item
carries the fresh product name "N" and SKU "K", but its unit price is the
cart's captured 10, not the product's current 15 — the claim that the
price is "read fresh from the current product record" is false. -/
theorem createOrder_price_from_cart_not_product :
    c8Prod.price = 15 ∧
    (createOrder c8St c1Req c1Env 1).1 =
      .ok (buildOrder c1Req c8Cart 1 (c8Cart.items.map (snapItem c8St.products))) ∧
    (buildOrder c1Req c8Cart 1 (c8Cart.items.map (snapItem c8St.products))).items =
      [{ product := 0, variant := none, name := "N", sku := "K", price := 10,
         quantity := 2, subtotal := 20 }] ∧
    (10 : Int) ≠ 15 := by
  exact ⟨rfl, rfl, rfl, by decide⟩

theorem createOrder_snapshot_amended_witness :
    (createOrder c8St c1Req c1Env 1).1 =
      .ok (buildOrder c1Req c8Cart 1 (c8Cart.items.map (snapItem c8St.products))) ∧
    (buildOrder c1Req c8Cart 1 (c8Cart.items.map (snapItem c8St.products))).items =
      c8Cart.items.map (snapItem c8St.products) := by
  refine ⟨rfl, ?_⟩
  exact (createOrder_snapshot_amended c8St c1Req c1Env 1 (.byUser 1) c8Cart
    (buildOrder c1Req c8Cart 1 (c8Cart.items.map (snapItem c8St.products)))
    rfl rfl rfl).1

/-! ### Claim C9 -/

/-- C9 (amended): the ownership check protects only orders that HAVE an
owning user: a requester who is not an admin and differs from the
present owner gets `ApiError(403, ...)` with the state unchanged; but an
order with no owning user (guest checkout) skips the check entirely —
`order.user` being null makes the guard falsy — so ANY authenticated
requester may cancel a pending guest order. -/
theorem cancelOrder_forbidden_amended (st : St) (u : Requester) (oid : Nat)
    (reason : Option String) (order : Order)
    (hfind : findOrder st.orders oid = some order) :
    (u.role ≠ "admin" → ∀ ou, order.user = some ou → ou ≠ u.id →
      cancelOrder st u oid reason =
        (.error (.api 403 "You are not authorized to cancel this order"), st)) ∧
    (order.user = none →
      (order.status = "pending" ∨ order.status = "processing") →
      (cancelOrder st u oid reason).1 = .ok (cancelledOrder order reason)) := by
  constructor
  · intro hrole ou hou hne
    have h2 : (u.role != "admin" && ownerMismatch order.user u.id) = true := by
      rw [Bool.and_eq_true]
      constructor
      · exact bne_iff_ne.mpr hrole
      · rw [hou]
        simp only [ownerMismatch]
        exact bne_iff_ne.mpr hne
    exact cancelOrder_eq_forbidden hfind h2
  · intro hguest hst
    have h2 : (u.role != "admin" && ownerMismatch order.user u.id) = false := by
      rw [hguest]
      simp [ownerMismatch]
    have h3 : (order.status == "pending" || order.status == "processing") = true := by
      rcases hst with h | h <;> simp [h]
    rw [cancelOrder_eq_success hfind h2 h3]

/-- A pending guest order (no owning user) for 2 × P. -/
def c9Order : Order := { c5Order with oid := 4, user := none }

def c9St : St := { products := [c1Prod], carts := [], orders := [c9Order] }

/-- A non-admin requester unrelated to anything. -/
def c9U : Requester := { id := 99, email := "x@example.com", role := "customer" }

/-- C9, counterexample: a guest-checkout order (`order.user` null) in
status `pending` is cancelled by a non-admin stranger WITHOUT any
`ForbiddenError` — the cancel succeeds and restores the stock from 5 to
7 — refuting the claim that non-owner non-admin requesters always get
`ForbiddenError`, in particular for orders with no owning user. -/
theorem cancelOrder_guest_order_unprotected :
    c9U.role = "customer" ∧ c9Order.user = none ∧
    (cancelOrder c9St c9U 4 none).1.isOk = true ∧
    findProduct (cancelOrder c9St c9U 4 none).2.products 0 =
      some { pid := 0, name := "P", sku := "S", price := 10, stock := 7 } := by
  exact ⟨rfl, rfl, rfl, rfl⟩

theorem cancelOrder_forbidden_amended_witness :
    c5Order.user = some 1 ∧ c9U.id = 99 ∧ (99 : Nat) ≠ 1 ∧
    cancelOrder c5St c9U 3 none =
      (.error (.api 403 "You are not authorized to cancel this order"), c5St) := by
  refine ⟨rfl, rfl, by decide, ?_⟩
  exact (cancelOrder_forbidden_amended c5St c9U 3 none c5Order rfl).1
    (by decide) 1 rfl (by decide)

/-! ### Claim C10 -/

/-- C10 (confirmed): in `updateCartItem`, a request carrying both a
non-positive quantity and a saved-for-later value first splices the item
out of the list and then writes the flag through the STALE index
`itemIndex`: when the removed item was the last element the access
`cart.items[itemIndex]` is out of range and the assignment to a property
of `undefined` raises a `TypeError`; otherwise — the items of the cart
having distinct ids — the flag lands on a DIFFERENT line item than the
one named by `itemId`. -/
theorem updateCartItem_stale_index (st : St) (user : Option Requester)
    (sessionId : Option Nat) (itemId : Nat) (qty : Int) (b : Bool)
    (q : CartQuery) (cart : Cart) (i : Nat)
    (hq : resolveQuery user sessionId = some q)
    (hc : findCart st.carts q = some cart)
    (hidx : findIndex (fun it => it.itemId == itemId) cart.items = some i)
    (hnodup : (cart.items.map (·.itemId)).Nodup)
    (hqty : qty ≤ 0) :
    (i + 1 = cart.items.length →
      (updateCartItem st user sessionId itemId (some qty) (some b)).1 =
        .error (.typeError "Cannot set properties of undefined")) ∧
    (i + 1 < cart.items.length →
      ∃ cart',
        (updateCartItem st user sessionId itemId (some qty) (some b)).1 =
          .ok cart' ∧
        ∃ it', cart'.items.get? i = some it' ∧ it'.savedForLater = b ∧
          it'.itemId ≠ itemId) := by
  have hilt : i < cart.items.length := findIndex_lt_length hidx
  have hqs : quantityStep st.products cart.items i (some qty) =
      .ok (cart.items.eraseIdx i) := by
    simp only [quantityStep]
    rw [if_pos hqty]
  have hlen : (cart.items.eraseIdx i).length + 1 = cart.items.length :=
    List.length_eraseIdx_add_one hilt
  constructor
  · intro hlast
    have hnone : (cart.items.eraseIdx i).get? i = none := by
      rw [List.get?_eq_none]
      omega
    simp only [updateCartItem, hq, hc, hidx, hqs, hnone]
  · intro hmid
    have hsucc : i + 1 ≤ i + 1 := le_refl _
    have hget : (cart.items.eraseIdx i).get? i = cart.items.get? (i + 1) :=
      get?_eraseIdx_ge cart.items i i (le_refl i)
    have hi1 : i + 1 < cart.items.length := hmid
    obtain ⟨it1, hit1⟩ : ∃ a, cart.items.get? (i + 1) = some a := by
      cases h : cart.items.get? (i + 1) with
      | none =>
        rw [List.get?_eq_none] at h
        omega
      | some a => exact ⟨a, rfl⟩
    have hsome : (cart.items.eraseIdx i).get? i = some it1 := hget.trans hit1
    rcases findIndex_get? hidx with ⟨it0, hit0, hbeq⟩
    have hid0 : it0.itemId = itemId := eq_of_beq hbeq
    have hidne : it0.itemId ≠ it1.itemId := by
      refine nodup_get?_ne (cart.items.map (·.itemId)) hnodup i (i + 1)
        it0.itemId it1.itemId (by omega) ?_ ?_
      · rw [get?_map_list, hit0]
        rfl
      · rw [get?_map_list, hit1]
        rfl
    refine ⟨recalcTotals { cart with
      items := (cart.items.eraseIdx i).set i { it1 with savedForLater := b } },
      ?_, { it1 with savedForLater := b }, ?_, rfl, ?_⟩
    · simp only [updateCartItem, hq, hc, hidx, hqs, hsome, finishCart]
    · rw [recalcTotals_items]
      exact get?_set_self _ i _ (by omega)
    · show it1.itemId ≠ itemId
      intro h
      exact hidne (hid0.trans h.symm)

/-- A 2-item cart: the targeted item 1 sits at index 0 (not last). -/
def c10Cart : Cart :=
  { cid := 0, user := some 1, sessionId := none
    items :=
      [{ itemId := 1, product := 0, variant := none, price := 10, quantity := 2,
         savedForLater := false },
       { itemId := 2, product := 0, variant := none, price := 10, quantity := 2,
         savedForLater := false }]
    appliedCoupons := [], subtotal := 40, discountTotal := 0, taxTotal := 0,
    shippingTotal := 0, grandTotal := 40 }

def c10St : St := { products := [c1Prod], carts := [c10Cart], orders := [] }

def c10U : Requester := { id := 1, email := "u@example.com", role := "customer" }

theorem updateCartItem_stale_index_witness :
    findIndex (fun it => it.itemId == 1) c10Cart.items = some 0 ∧
    (0 : Int) ≤ 0 ∧
    ∃ cart',
      (updateCartItem c10St (some c10U) none 1 (some 0) (some true)).1 =
        .ok cart' ∧
      ∃ it', cart'.items.get? 0 = some it' ∧ it'.savedForLater = true ∧
        it'.itemId ≠ 1 := by
  refine ⟨rfl, by decide, ?_⟩
  exact (updateCartItem_stale_index c10St (some c10U) none 1 0 true
    (.byUser 1) c10Cart 0 rfl rfl rfl (by decide) (by decide)).2 (by decide)

end ECom
